import Mathlib

/-!
Shallow embedding of `src/cgaladv.cc` (OpenSCAD's advanced CGAL module layer):
argument resolution and node construction for the builtins
`minkowski`, `glide`, `subdiv`, `hull`, `resize`, plus the node's
canonical string rendering (`CgaladvNode::toString`).

Doubles of the C++ code are modelled as rationals (`ℚ`); the C cast
`(int)d` is truncation toward zero, modelled by `truncToInt`.
-/

namespace Cgaladv

/-- The operation variants, from `cgaladv_type_e`. -/
inductive cgaladv_type_e where
  | MINKOWSKI
  | GLIDE
  | SUBDIV
  | HULL
  | RESIZE
deriving DecidableEq, Repr

/-- Subdivision surface kinds, from `subdiv_type_e`
(`SUBDIV_CATMULL_CLARK`, `SUBDIV_LOOP`, `SUBDIV_DOO_SABIN`, `SUBDIV_SQRT3`). -/
inductive subdiv_type_e where
  | SUBDIV_CATMULL_CLARK
  | SUBDIV_LOOP
  | SUBDIV_DOO_SABIN
  | SUBDIV_SQRT3
deriving DecidableEq, Repr

/-- The dynamic `Value` tagged union consumed by this module
(undefined / boolean / number / string / vector). -/
inductive Value where
  | undef
  | boolV (b : Bool)
  | num (n : ℚ)
  | str (s : String)
  | vec (vs : List Value)

/-- Value type tags, mirroring `Value::type()`'s result. -/
inductive ValueTag where
  | UNDEFINED
  | BOOL
  | NUMBER
  | STRING
  | VECTOR
deriving DecidableEq, Repr

namespace Value

/-- The tag of a value (`Value::type()`). -/
def type : Value → ValueTag
  | .undef => .UNDEFINED
  | .boolV _ => .BOOL
  | .num _ => .NUMBER
  | .str _ => .STRING
  | .vec _ => .VECTOR

/-- Mirrors `Value::isUndefined()`. -/
def isUndefined (v : Value) : Bool := v.type = ValueTag.UNDEFINED

/-- Modelled from the spec: the external Value Inspector's numeric
extraction (`Value::toDouble`), which yields the number for a
NUMBER-tagged value and the explicit fallback 0 for every other tag
(the spec's "explicit fallback when absent"). -/
def toDouble : Value → ℚ
  | .num n => n
  | _ => 0

/-- Modelled from the spec: the external Value Inspector's boolean
extraction (`Value::toBool`): BOOL yields the stored boolean, NUMBER is
true iff nonzero, STRING and VECTOR are true iff nonempty, and the
fallback is false. -/
def toBool : Value → Bool
  | .boolV b => b
  | .num n => if n = 0 then false else true
  | .str s => if s = "" then false else true
  | .vec vs => !vs.isEmpty
  | .undef => false

/-- Mirrors `Value::toVector()`: the element list of a VECTOR, empty otherwise. -/
def toVector : Value → List Value
  | .vec vs => vs
  | _ => []

/-- Modelled from the spec: the external textual rendering of a dynamic
value (`Value::toString` / `operator<<`), out of scope of this module;
a deterministic total rendering per tag. -/
def toStr : Value → String
  | .undef => "undef"
  | .boolV b => if b then "true" else "false"
  | .num n => toString n
  | .str s => s
  | .vec vs => "[" ++ String.intercalate ", " (vs.attach.map fun v => toStr v.1) ++ "]"
decreasing_by
  have h := List.sizeOf_lt_of_mem v.2
  simp only [Value.vec.sizeOf_spec]
  omega

end Value

/-- The C cast `(int)d` applied to a double: truncation toward zero,
on rationals the quotient of numerator by denominator. -/
def truncToInt (q : ℚ) : Int := q.num.tdiv (q.den : Int)

/-- The constructed node, from `CgaladvNode` (fields populated by
`CgaladvModule::evaluate`). -/
structure CgaladvNode where
  type : cgaladv_type_e
  convexity : Int := 0
  path : Value := .undef
  subdiv_type : subdiv_type_e := .SUBDIV_CATMULL_CLARK
  subdiv_level : Int := 0
  newsize : ℚ × ℚ × ℚ := (0, 0, 0)
  autosize : Bool × Bool × Bool := (false, false, false)

/-- A resolved scope: the name-to-value mapping produced by binding the
call-site arguments against the variant's signature (`Context`), with
`Value.undef` for a declared name the call site left unbound. -/
def ResolvedScope := String → Value

/-- The warning text of `cgaladv.cc:93`. -/
def levelWarning : String := "WARNING: Subdivision cannot be less than 0. Setting to 0."

/-- The warning texts of `cgaladv.cc:109-110` (the `PRINTB` format
`"WARNING: unknown subdivision type %s"` instantiated, then the fixed
follow-up). -/
def unknownTypeWarning (s : String) : String := "WARNING: unknown subdivision type " ++ s

/-- The second warning of the unknown-type fallback (`cgaladv.cc:110`). -/
def settingWarning : String := "WARNING: setting to CatmullClark"

/-- Lines 84-87: enable `subdiv("loop",1)` or `subdiv(1,"loop")` — swap
the values bound to `level` and `type` when `level` is a STRING and
`type` is a NUMBER. -/
def subdivDisambiguate (lv tv : Value) : Value × Value :=
  if lv.type = ValueTag.STRING ∧ tv.type = ValueTag.NUMBER then (tv, lv) else (lv, tv)

/-- Lines 90-95: resolve the subdivision level from the (disambiguated)
`level` value, returning the stored level and the warnings emitted. -/
def subdivLevelResolve (v : Value) : Int × List String :=
  let lvl : Int := if v.isUndefined then 1 else truncToInt v.toDouble
  if lvl < 0 then (0, [levelWarning]) else (lvl, [])

/-- ASCII lowercasing, `boost::algorithm::to_lower` as used at line 99: per-character
ASCII lowercasing of the string. -/
def strToLower (s : String) : String := String.mk (s.data.map Char.toLower)

/-- Lines 100-112: match the already-lowercased type text against the
recognized spellings, yielding the stored kind and the warnings of the
unmatched fallback. -/
def subdivTypeFromString (s : String) : subdiv_type_e × List String :=
  if s = "catmullclark" ∨ s = "catmull clark" then (.SUBDIV_CATMULL_CLARK, [])
  else if s = "loop" then (.SUBDIV_LOOP, [])
  else if s = "doosabin" ∨ s = "doo sabin" then (.SUBDIV_DOO_SABIN, [])
  else if s = "sqrt3" ∨ s = "sqrt 3" then (.SUBDIV_SQRT3, [])
  else (.SUBDIV_CATMULL_CLARK, [unknownTypeWarning s, settingWarning])

/-- Lines 97-112: resolve the surface kind from the (disambiguated)
`type` value — default text `"catmullclark"` when undefined, otherwise
the value's textual form — lowercased and matched. -/
def subdivTypeResolve (v : Value) : subdiv_type_e × List String :=
  subdivTypeFromString (strToLower (if v.isUndefined then "catmullclark" else v.toStr))

/-- Lines 118-125: resolve the `newsize` 3-vector. The node starts at
`(0,0,0)`; when the value is a VECTOR, each of the first three components
present overwrites the corresponding default. -/
def resizeNewsize (ns : Value) : ℚ × ℚ × ℚ :=
  if ns.type = ValueTag.VECTOR then
    let vs := ns.toVector
    (if vs.length ≥ 1 then (vs.getD 0 .undef).toDouble else 0,
     if vs.length ≥ 2 then (vs.getD 1 .undef).toDouble else 0,
     if vs.length ≥ 3 then (vs.getD 2 .undef).toDouble else 0)
  else (0, 0, 0)

/-- Lines 126-136: resolve the `auto` 3-vector of booleans. The node
starts at `(false,false,false)`; a VECTOR overwrites componentwise, and a
BOOL-tagged value sets all three axes to `true`. -/
def resizeAutosize (a : Value) : Bool × Bool × Bool :=
  if a.type = ValueTag.VECTOR then
    let va := a.toVector
    (if va.length ≥ 1 then (va.getD 0 .undef).toBool else false,
     if va.length ≥ 2 then (va.getD 1 .undef).toBool else false,
     if va.length ≥ 3 then (va.getD 2 .undef).toBool else false)
  else if a.type = ValueTag.BOOL then (true, true, true)
  else (false, false, false)

/-- The evaluator `CgaladvModule::evaluate` (lines 47-146): variant-specific argument
resolution over the resolved scope, producing the constructed node and
the list of warnings emitted, in emission order. The five mutually
exclusive `if (type == …)` blocks of the source become a match; the
locals `convexity` and `path` start as the undefined value (line 69) and
are written into the node unconditionally at lines 139-140. -/
def evaluate (type : cgaladv_type_e) (c : ResolvedScope) : CgaladvNode × List String :=
  match type with
  | .MINKOWSKI =>
      let convexity := c "convexity"
      ({ type := type, convexity := truncToInt convexity.toDouble, path := .undef }, [])
  | .GLIDE =>
      let convexity := c "convexity"
      let path := c "path"
      ({ type := type, convexity := truncToInt convexity.toDouble, path := path }, [])
  | .SUBDIV =>
      let (subdiv_level, subdiv_typeval) := subdivDisambiguate (c "level") (c "type")
      let (lvl, lvlWarnings) := subdivLevelResolve subdiv_level
      let (kind, kindWarnings) := subdivTypeResolve subdiv_typeval
      let convexity := c "convexity"
      ({ type := type, convexity := truncToInt convexity.toDouble, path := .undef,
         subdiv_level := lvl, subdiv_type := kind }, lvlWarnings ++ kindWarnings)
  | .HULL =>
      ({ type := type, convexity := truncToInt Value.undef.toDouble, path := .undef }, [])
  | .RESIZE =>
      ({ type := type, convexity := truncToInt Value.undef.toDouble, path := .undef,
         newsize := resizeNewsize (c "newsize"),
         autosize := resizeAutosize (c "auto") }, [])

/-- The variant keyword, `CgaladvNode::name()` (lines 153-174). -/
def nodeName : cgaladv_type_e → String
  | .MINKOWSKI => "minkowski"
  | .GLIDE => "glide"
  | .SUBDIV => "subdiv"
  | .HULL => "hull"
  | .RESIZE => "resize"

/-- Modelled from the spec: the numeric code the C++ stream insertion
prints for a `subdiv_type_e` enumerator (the enum declaration lives in
the header `cgaladvnode.h`, outside this file; codes follow declaration
order). -/
def subdivTypeCode : subdiv_type_e → Int
  | .SUBDIV_CATMULL_CLARK => 0
  | .SUBDIV_LOOP => 1
  | .SUBDIV_DOO_SABIN => 2
  | .SUBDIV_SQRT3 => 3

/-- Modelled from the spec: the C++ `ostream` rendering of a double
(here a rational) as used for the `newsize` components. -/
def doubleRepr (q : ℚ) : String := toString q

/-- The C++ `ostream` rendering of a bool without `boolalpha`: `1`/`0`. -/
def boolRepr (b : Bool) : String := if b then "1" else "0"

/-- The canonical rendering `CgaladvNode::toString()` (lines 176-206): the textual
rendering of a node's variant and resolved parameters. -/
def nodeToString (n : CgaladvNode) : String :=
  nodeName n.type ++
  match n.type with
  | .MINKOWSKI => "(convexity = " ++ toString n.convexity ++ ")"
  | .GLIDE => "(path = " ++ n.path.toStr ++ ", convexity = " ++ toString n.convexity ++ ")"
  | .SUBDIV => "(type = " ++ toString (subdivTypeCode n.subdiv_type) ++ ", level = " ++
      toString n.subdiv_level ++ ", convexity = " ++ toString n.convexity ++ ")"
  | .HULL => "()"
  | .RESIZE => "(newsize = [" ++ doubleRepr n.newsize.1 ++ "," ++ doubleRepr n.newsize.2.1 ++
      "," ++ doubleRepr n.newsize.2.2 ++ "], auto = [" ++ boolRepr n.autosize.1 ++ "," ++
      boolRepr n.autosize.2.1 ++ "," ++ boolRepr n.autosize.2.2 ++ "])"

/-- The empty resolved scope: every declared name unbound. -/
def emptyScope : ResolvedScope := fun _ => Value.undef

/-- Override one binding of a resolved scope. -/
def bindVar (c : ResolvedScope) (name : String) (v : Value) : ResolvedScope :=
  fun n => if n = name then v else c n

/-! Unfolding lemmas tying the fields of the constructed node to the
per-block resolution helpers. -/

lemma eval_subdiv_level_eq (c : ResolvedScope) :
    (evaluate .SUBDIV c).1.subdiv_level =
      (subdivLevelResolve (subdivDisambiguate (c "level") (c "type")).1).1 := rfl

lemma eval_subdiv_type_eq (c : ResolvedScope) :
    (evaluate .SUBDIV c).1.subdiv_type =
      (subdivTypeResolve (subdivDisambiguate (c "level") (c "type")).2).1 := rfl

lemma eval_subdiv_warnings_eq (c : ResolvedScope) :
    (evaluate .SUBDIV c).2 =
      (subdivLevelResolve (subdivDisambiguate (c "level") (c "type")).1).2 ++
      (subdivTypeResolve (subdivDisambiguate (c "level") (c "type")).2).2 := rfl

lemma eval_resize_newsize_eq (c : ResolvedScope) :
    (evaluate .RESIZE c).1.newsize = resizeNewsize (c "newsize") := rfl

lemma eval_resize_autosize_eq (c : ResolvedScope) :
    (evaluate .RESIZE c).1.autosize = resizeAutosize (c "auto") := rfl

/-- The unknown-type warning never coincides with the negative-level
warning, whatever the offending type text (their tenth characters
differ). -/
lemma unknownTypeWarning_ne_levelWarning (s : String) :
    unknownTypeWarning s ≠ levelWarning := by
  obtain ⟨l⟩ := s
  intro h
  have h2 : (unknownTypeWarning (String.mk l)).data.get? 9 = levelWarning.data.get? 9 := by
    rw [h]
  have h3 : (unknownTypeWarning (String.mk l)).data.get? 9 = some 'u' := rfl
  have h4 : levelWarning.data.get? 9 = some 'S' := rfl
  rw [h3, h4] at h2
  exact absurd (Option.some.inj h2) (by decide)

/-- The type-resolution warnings never contain the negative-level
warning text. -/
lemma count_levelWarning_typeFromString (s : String) :
    ((subdivTypeFromString s).2).count levelWarning = 0 := by
  unfold subdivTypeFromString
  split
  · rfl
  · split
    · rfl
    · split
      · rfl
      · split
        · rfl
        · simp [List.count_cons, unknownTypeWarning_ne_levelWarning,
            show settingWarning ≠ levelWarning by decide]

/-- C1: a resize call binding `auto` to the boolean scalar `false` does
NOT keep the default axes: the code tests only the BOOL tag, so even
`auto = false` broadcasts to (true,true,true). This evaluates the code
at that input. -/
theorem C1_resize_auto_false_broadcasts :
    (evaluate .RESIZE (bindVar emptyScope "auto" (.boolV false))).1.autosize
      = (true, true, true) ∧
    ((true, true, true) : Bool × Bool × Bool) ≠ (false, false, false) := by
  constructor
  · rfl
  · decide

/-- C2: the level/type swap fires exactly when `level` is STRING-tagged
and `type` is NUMBER-tagged, so `subdiv(1,"loop")` and `subdiv("loop",1)`
(and any number/string pair) resolve to the same node and warnings, and
no other tag combination is swapped. -/
theorem C2_subdiv_swap_resolution :
    (∀ (n : ℚ) (s : String) (c : ResolvedScope),
        evaluate .SUBDIV (bindVar (bindVar c "level" (.num n)) "type" (.str s)) =
        evaluate .SUBDIV (bindVar (bindVar c "level" (.str s)) "type" (.num n))) ∧
    (∀ lv tv : Value, ¬(lv.type = ValueTag.STRING ∧ tv.type = ValueTag.NUMBER) →
        subdivDisambiguate lv tv = (lv, tv)) := by
  constructor
  · intro n s c
    rfl
  · intro lv tv h
    unfold subdivDisambiguate
    rw [if_neg h]

/-- C2 witness: the swap equivalence at `subdiv(1,"loop")` versus
`subdiv("loop",1)`, and a no-swap tag combination. -/
theorem C2_subdiv_swap_resolution_witness :
    evaluate .SUBDIV (bindVar (bindVar emptyScope "level" (.num 1)) "type" (.str "loop")) =
      evaluate .SUBDIV (bindVar (bindVar emptyScope "level" (.str "loop")) "type" (.num 1)) ∧
    subdivDisambiguate (.num 1) (.str "loop") = (.num 1, .str "loop") :=
  ⟨C2_subdiv_swap_resolution.1 1 "loop" emptyScope,
   C2_subdiv_swap_resolution.2 (.num 1) (.str "loop") (by decide)⟩

/-- C3 counterexample: the claim says a resize call reads `convexity`
from the resolved scope and truncates it; but with `convexity` bound to
5 the constructed node's convexity is 0, not 5 — the RESIZE branch never
looks `convexity` up. -/
theorem C3_resize_convexity_not_read :
    ¬ ((evaluate .RESIZE (bindVar emptyScope "convexity" (.num 5))).1.convexity =
        truncToInt ((bindVar emptyScope "convexity" (.num 5)) "convexity").toDouble) := by
  decide

/-- C3 amended: for a resize call `convexity` is never looked up; the
node's convexity is always the truncation of the undefined fallback,
i.e. 0, whatever the scope binds. -/
theorem C3_resize_convexity_always_zero (c : ResolvedScope) :
    (evaluate .RESIZE c).1.convexity = 0 := rfl

/-- C7: for minkowski, glide and subdiv the resolved convexity is the
numeric value of the `convexity` binding truncated toward zero (2.9
truncates to 2, -2.9 to -2), and a negative value passes through
unclamped. -/
theorem C7_convexity_truncation :
    (∀ c : ResolvedScope,
        (evaluate .MINKOWSKI c).1.convexity = truncToInt (c "convexity").toDouble ∧
        (evaluate .GLIDE c).1.convexity = truncToInt (c "convexity").toDouble ∧
        (evaluate .SUBDIV c).1.convexity = truncToInt (c "convexity").toDouble) ∧
    truncToInt (29/10 : ℚ) = 2 ∧
    truncToInt (-29/10 : ℚ) = -2 ∧
    (evaluate .MINKOWSKI (bindVar emptyScope "convexity" (.num (29/10)))).1.convexity = 2 ∧
    (evaluate .MINKOWSKI (bindVar emptyScope "convexity" (.num (-7)))).1.convexity = -7 := by
  have hp : truncToInt (29/10 : ℚ) = 2 := by
    have hn : ((29 : ℚ)/10).num = 29 := by norm_num
    have hd : ((29 : ℚ)/10).den = 10 := by norm_num
    unfold truncToInt
    rw [hn, hd]
    decide
  have hm : truncToInt (-29/10 : ℚ) = -2 := by
    have hn : ((-29 : ℚ)/10).num = -29 := by norm_num
    have hd : ((-29 : ℚ)/10).den = 10 := by norm_num
    unfold truncToInt
    rw [hn, hd]
    decide
  exact ⟨fun c => ⟨rfl, rfl, rfl⟩, hp, hm, hp, by decide⟩

/-- C9: a resize call whose `newsize` is not VECTOR-tagged, or whose
`auto` is neither VECTOR- nor BOOL-tagged, keeps the documented defaults
(0,0,0) and (false,false,false); resolution always succeeds and the
RESIZE branch emits no warnings. -/
theorem C9_resize_bad_tags_keep_defaults :
    (∀ c : ResolvedScope, (c "newsize").type ≠ ValueTag.VECTOR →
        (evaluate .RESIZE c).1.newsize = (0, 0, 0)) ∧
    (∀ c : ResolvedScope, (c "auto").type ≠ ValueTag.VECTOR →
        (c "auto").type ≠ ValueTag.BOOL →
        (evaluate .RESIZE c).1.autosize = (false, false, false)) ∧
    (∀ c : ResolvedScope, (evaluate .RESIZE c).2 = []) := by
  refine ⟨fun c h => ?_, fun c h1 h2 => ?_, fun c => rfl⟩
  · rw [eval_resize_newsize_eq]
    unfold resizeNewsize
    rw [if_neg h]
  · rw [eval_resize_autosize_eq]
    unfold resizeAutosize
    rw [if_neg h1, if_neg h2]

/-- C9 witness: a number-valued `newsize` and a string-valued `auto`
both keep their defaults. -/
theorem C9_resize_bad_tags_keep_defaults_witness :
    (evaluate .RESIZE (bindVar emptyScope "newsize" (.num 7))).1.newsize = (0, 0, 0) ∧
    (evaluate .RESIZE (bindVar emptyScope "auto" (.str "x"))).1.autosize =
      (false, false, false) :=
  ⟨C9_resize_bad_tags_keep_defaults.1 (bindVar emptyScope "newsize" (.num 7)) (by decide),
   (C9_resize_bad_tags_keep_defaults.2.1 (bindVar emptyScope "auto" (.str "x"))
      (by decide) (by decide))⟩

/-- C10: hull and resize nodes still get a convexity, namely the
truncation of the undefined value's numeric fallback (0), and every
variant other than glide leaves the node's path as the undefined value. -/
theorem C10_hull_resize_convexity_path :
    (∀ c : ResolvedScope,
        (evaluate .HULL c).1.convexity = truncToInt Value.undef.toDouble ∧
        (evaluate .HULL c).1.convexity = 0 ∧
        (evaluate .RESIZE c).1.convexity = truncToInt Value.undef.toDouble ∧
        (evaluate .RESIZE c).1.convexity = 0) ∧
    (∀ (t : cgaladv_type_e) (c : ResolvedScope), t ≠ .GLIDE →
        (evaluate t c).1.path = .undef) := by
  refine ⟨fun c => ⟨rfl, rfl, rfl, rfl⟩, fun t c h => ?_⟩
  cases t with
  | GLIDE => exact absurd rfl h
  | MINKOWSKI => rfl
  | SUBDIV => rfl
  | HULL => rfl
  | RESIZE => rfl

/-- C10 witness: the path of a hull node is undefined even when the
scope binds `path`. -/
theorem C10_hull_resize_convexity_path_witness :
    (evaluate .HULL (bindVar emptyScope "path" (.num 3))).1.path = .undef :=
  C10_hull_resize_convexity_path.2 .HULL (bindVar emptyScope "path" (.num 3))
    (by decide)

/-! Case lemmas for the level resolution. -/

lemma count_levelWarning_typeResolve (v : Value) :
    ((subdivTypeResolve v).2).count levelWarning = 0 :=
  count_levelWarning_typeFromString _

lemma toStr_str (s : String) : (Value.str s).toStr = s := by
  simp [Value.toStr]

lemma subdivTypeResolve_str (s : String) :
    subdivTypeResolve (.str s) = subdivTypeFromString (strToLower s) := by
  unfold subdivTypeResolve
  rw [show (Value.str s).isUndefined = false from rfl]
  simp only [Bool.false_eq_true, if_false, toStr_str]

lemma subdivLevelResolve_undef (v : Value) (h : v.isUndefined = true) :
    subdivLevelResolve v = (1, []) := by
  unfold subdivLevelResolve
  rw [h]
  rfl

lemma subdivLevelResolve_of_nonneg (v : Value) (h : v.isUndefined = false)
    (h2 : 0 ≤ truncToInt v.toDouble) :
    subdivLevelResolve v = (truncToInt v.toDouble, []) := by
  unfold subdivLevelResolve
  rw [h]
  simp only [Bool.false_eq_true, if_false]
  rw [if_neg (by omega)]

lemma subdivLevelResolve_of_neg (v : Value) (h : v.isUndefined = false)
    (h2 : truncToInt v.toDouble < 0) :
    subdivLevelResolve v = (0, [levelWarning]) := by
  unfold subdivLevelResolve
  rw [h]
  simp only [Bool.false_eq_true, if_false]
  rw [if_pos h2]

lemma subdivLevelResolve_nonneg (v : Value) : 0 ≤ (subdivLevelResolve v).1 := by
  simp only [subdivLevelResolve]
  split
  · norm_num
  · split
    · exact Int.le_refl 0
    · rename_i h
      exact Int.not_lt.mp h

/-- C4: after disambiguation an undefined level defaults to 1 and a
defined one is the numeric value truncated toward zero; a negative
truncation is clamped to 0 and emits the negative-level warning exactly
once; in the other cases that warning is absent; the stored level is
never negative. -/
theorem C4_subdiv_level_clamp (c : ResolvedScope) :
    ((subdivDisambiguate (c "level") (c "type")).1.isUndefined = true →
      (evaluate .SUBDIV c).1.subdiv_level = 1 ∧
      (evaluate .SUBDIV c).2.count levelWarning = 0) ∧
    ((subdivDisambiguate (c "level") (c "type")).1.isUndefined = false →
      0 ≤ truncToInt (subdivDisambiguate (c "level") (c "type")).1.toDouble →
      (evaluate .SUBDIV c).1.subdiv_level =
        truncToInt (subdivDisambiguate (c "level") (c "type")).1.toDouble ∧
      (evaluate .SUBDIV c).2.count levelWarning = 0) ∧
    ((subdivDisambiguate (c "level") (c "type")).1.isUndefined = false →
      truncToInt (subdivDisambiguate (c "level") (c "type")).1.toDouble < 0 →
      (evaluate .SUBDIV c).1.subdiv_level = 0 ∧
      (evaluate .SUBDIV c).2.count levelWarning = 1) ∧
    0 ≤ (evaluate .SUBDIV c).1.subdiv_level := by
  refine ⟨fun h => ?_, fun h h2 => ?_, fun h h2 => ?_, ?_⟩
  · rw [eval_subdiv_level_eq, eval_subdiv_warnings_eq, subdivLevelResolve_undef _ h]
    exact ⟨rfl, by simp [count_levelWarning_typeResolve]⟩
  · rw [eval_subdiv_level_eq, eval_subdiv_warnings_eq, subdivLevelResolve_of_nonneg _ h h2]
    exact ⟨rfl, by simp [count_levelWarning_typeResolve]⟩
  · rw [eval_subdiv_level_eq, eval_subdiv_warnings_eq, subdivLevelResolve_of_neg _ h h2]
    refine ⟨rfl, ?_⟩
    rw [List.count_append, count_levelWarning_typeResolve]
    simp [List.count_cons]
  · rw [eval_subdiv_level_eq]
    exact subdivLevelResolve_nonneg _

/-- C4 witness: `subdiv(level=-5)` stores level 0 and emits the
negative-level warning exactly once. -/
theorem C4_subdiv_level_clamp_witness :
    (evaluate .SUBDIV (bindVar emptyScope "level" (.num (-5)))).1.subdiv_level = 0 ∧
    (evaluate .SUBDIV (bindVar emptyScope "level" (.num (-5)))).2.count levelWarning = 1 :=
  (C4_subdiv_level_clamp (bindVar emptyScope "level" (.num (-5)))).2.2.1
    (by decide) (by decide)

/-- C5: surface-kind resolution — undefined defaults to CatmullClark
with no warning; the lowercased text is matched against the recognized
spellings; unmatched text falls back to CatmullClark and emits exactly
the two warnings; the node's stored kind is the resolution of the
disambiguated type value (and the codomain is the closed four-element
enumeration). -/
theorem C5_subdiv_type_matching :
    subdivTypeResolve .undef = (.SUBDIV_CATMULL_CLARK, []) ∧
    (∀ s : String, strToLower s = "catmullclark" ∨ strToLower s = "catmull clark" →
        subdivTypeResolve (.str s) = (.SUBDIV_CATMULL_CLARK, [])) ∧
    (∀ s : String, strToLower s = "loop" →
        subdivTypeResolve (.str s) = (.SUBDIV_LOOP, [])) ∧
    (∀ s : String, strToLower s = "doosabin" ∨ strToLower s = "doo sabin" →
        subdivTypeResolve (.str s) = (.SUBDIV_DOO_SABIN, [])) ∧
    (∀ s : String, strToLower s = "sqrt3" ∨ strToLower s = "sqrt 3" →
        subdivTypeResolve (.str s) = (.SUBDIV_SQRT3, [])) ∧
    (∀ s : String,
        strToLower s ∉ (["catmullclark", "catmull clark", "loop", "doosabin",
          "doo sabin", "sqrt3", "sqrt 3"] : List String) →
        subdivTypeResolve (.str s) =
          (.SUBDIV_CATMULL_CLARK, [unknownTypeWarning (strToLower s), settingWarning]) ∧
        ((subdivTypeResolve (.str s)).2).length = 2) ∧
    (∀ c : ResolvedScope, (evaluate .SUBDIV c).1.subdiv_type =
        (subdivTypeResolve (subdivDisambiguate (c "level") (c "type")).2).1) := by
  refine ⟨rfl, fun s h => ?_, fun s h => ?_, fun s h => ?_, fun s h => ?_,
    fun s h => ?_, fun c => eval_subdiv_type_eq c⟩
  · rw [subdivTypeResolve_str]
    rcases h with h | h <;> rw [h] <;> rfl
  · rw [subdivTypeResolve_str, h]
    rfl
  · rw [subdivTypeResolve_str]
    rcases h with h | h <;> rw [h] <;> rfl
  · rw [subdivTypeResolve_str]
    rcases h with h | h <;> rw [h] <;> rfl
  · simp only [List.mem_cons, List.not_mem_nil, or_false, not_or] at h
    obtain ⟨h1, h2, h3, h4, h5, h6, h7⟩ := h
    have hmain : subdivTypeFromString (strToLower s) =
        (.SUBDIV_CATMULL_CLARK, [unknownTypeWarning (strToLower s), settingWarning]) := by
      unfold subdivTypeFromString
      rw [if_neg (by tauto), if_neg h3, if_neg (by tauto), if_neg (by tauto)]
    refine ⟨by rw [subdivTypeResolve_str, hmain], ?_⟩
    rw [subdivTypeResolve_str, hmain]
    rfl

/-- C5 witness: `type="LOOP"` resolves to Loop with no warning;
`type="bogus"` falls back to CatmullClark with exactly two warnings. -/
theorem C5_subdiv_type_matching_witness :
    subdivTypeResolve (.str "LOOP") = (.SUBDIV_LOOP, []) ∧
    subdivTypeResolve (.str "bogus") =
      (.SUBDIV_CATMULL_CLARK, [unknownTypeWarning (strToLower "bogus"), settingWarning]) ∧
    ((subdivTypeResolve (.str "bogus")).2).length = 2 :=
  ⟨C5_subdiv_type_matching.2.2.1 "LOOP" (by decide),
   (C5_subdiv_type_matching.2.2.2.2.2.1 "bogus" (by decide)).1,
   (C5_subdiv_type_matching.2.2.2.2.2.1 "bogus" (by decide)).2⟩

/-- C6: a vector-valued `newsize` fills the first three components
positionally — absent trailing components keep the default 0 (the
undefined fallback) and components beyond the third are ignored;
`resize(newsize=[5,6])` gives (5,6,0) and a bare `resize()` keeps
(0,0,0) and (false,false,false). -/
theorem C6_resize_newsize_fill :
    (∀ vs : List Value, resizeNewsize (.vec vs) =
        ((vs.getD 0 .undef).toDouble, (vs.getD 1 .undef).toDouble,
         (vs.getD 2 .undef).toDouble)) ∧
    (∀ c : ResolvedScope,
        (evaluate .RESIZE c).1.newsize = resizeNewsize (c "newsize") ∧
        (evaluate .RESIZE c).1.autosize = resizeAutosize (c "auto")) ∧
    (evaluate .RESIZE (bindVar emptyScope "newsize"
        (.vec [.num 5, .num 6]))).1.newsize = (5, 6, 0) ∧
    (evaluate .RESIZE emptyScope).1.newsize = (0, 0, 0) ∧
    (evaluate .RESIZE emptyScope).1.autosize = (false, false, false) := by
  refine ⟨fun vs => ?_, fun c => ⟨rfl, rfl⟩, by decide, rfl, rfl⟩
  match vs with
  | [] => rfl
  | [_] => rfl
  | [_, _] => rfl
  | a :: b :: d :: t =>
    show (if (a :: b :: d :: t).length ≥ 1
            then ((a :: b :: d :: t).getD 0 Value.undef).toDouble else 0,
          if (a :: b :: d :: t).length ≥ 2
            then ((a :: b :: d :: t).getD 1 Value.undef).toDouble else 0,
          if (a :: b :: d :: t).length ≥ 3
            then ((a :: b :: d :: t).getD 2 Value.undef).toDouble else 0) =
        (((a :: b :: d :: t).getD 0 Value.undef).toDouble,
         ((a :: b :: d :: t).getD 1 Value.undef).toDouble,
         ((a :: b :: d :: t).getD 2 Value.undef).toDouble)
    rw [if_pos (by simp only [List.length_cons]; omega),
        if_pos (by simp only [List.length_cons]; omega),
        if_pos (by simp only [List.length_cons]; omega)]

/-- C8: the canonical rendering is a function of the variant tag and the
per-variant parameter fields alone (nodes agreeing on those render to
byte-identical strings, whatever the remaining fields hold), and the
subdiv rendering follows the fixed field order type, level, convexity. -/
theorem C8_toString_pure_and_field_order :
    (∀ n1 n2 : CgaladvNode, n1.type = .MINKOWSKI → n2.type = .MINKOWSKI →
        n1.convexity = n2.convexity → nodeToString n1 = nodeToString n2) ∧
    (∀ n1 n2 : CgaladvNode, n1.type = .GLIDE → n2.type = .GLIDE →
        n1.path = n2.path → n1.convexity = n2.convexity →
        nodeToString n1 = nodeToString n2) ∧
    (∀ n1 n2 : CgaladvNode, n1.type = .SUBDIV → n2.type = .SUBDIV →
        n1.subdiv_type = n2.subdiv_type → n1.subdiv_level = n2.subdiv_level →
        n1.convexity = n2.convexity → nodeToString n1 = nodeToString n2) ∧
    (∀ n1 n2 : CgaladvNode, n1.type = .HULL → n2.type = .HULL →
        nodeToString n1 = nodeToString n2) ∧
    (∀ n1 n2 : CgaladvNode, n1.type = .RESIZE → n2.type = .RESIZE →
        n1.newsize = n2.newsize → n1.autosize = n2.autosize →
        nodeToString n1 = nodeToString n2) ∧
    (∀ (k : subdiv_type_e) (lvl cvx : Int),
        nodeToString { type := .SUBDIV, subdiv_type := k, subdiv_level := lvl, convexity := cvx } =
        "subdiv(type = " ++ toString (subdivTypeCode k) ++ ", level = " ++
          toString lvl ++ ", convexity = " ++ toString cvx ++ ")") := by
  refine ⟨fun n1 n2 h1 h2 hc => ?_, fun n1 n2 h1 h2 hp hc => ?_,
    fun n1 n2 h1 h2 hk hl hc => ?_, fun n1 n2 h1 h2 => ?_,
    fun n1 n2 h1 h2 hn ha => ?_, fun k lvl cvx => ?_⟩
  · simp only [nodeToString, h1, h2, hc]
  · simp only [nodeToString, h1, h2, hp, hc]
  · simp only [nodeToString, h1, h2, hk, hl, hc]
  · simp only [nodeToString, h1, h2]
  · simp only [nodeToString, h1, h2, hn, ha]
  · simp only [nodeToString, nodeName, ← String.append_assoc]
    rfl

/-- C8 witness: two hull nodes differing in every undeclared field
render identically, and the subdiv field order at a concrete node. -/
theorem C8_toString_pure_and_field_order_witness :
    nodeToString { type := .HULL, convexity := 1, path := .num 3 } =
      nodeToString { type := .HULL, convexity := 2, path := .str "x" } ∧
    nodeToString { type := .SUBDIV, subdiv_type := .SUBDIV_LOOP, subdiv_level := 2, convexity := 1 } =
      "subdiv(type = " ++ toString (subdivTypeCode .SUBDIV_LOOP) ++ ", level = " ++
        toString (2 : Int) ++ ", convexity = " ++ toString (1 : Int) ++ ")" :=
  ⟨C8_toString_pure_and_field_order.2.2.2.1 _ _ rfl rfl,
   C8_toString_pure_and_field_order.2.2.2.2.2 .SUBDIV_LOOP 2 1⟩

end Cgaladv
